import Mathlib

/-!
# The capture loop of `src/main.cpp`

`main` starts the OpenVR runtime, polls the tracked camera until one hundred
frames are stored, and writes the frames and their poses to disk.

The embedding keeps the control flow and the data flow of `main`:

* the camera is a `Device`: a state type with one operation,
  `GetVideoStreamFrameBuffer`, called header-only (null buffer) or with a
  pixel buffer; a call that never comes back is the reply `none`;
* one iteration of `while (true)` is `loopIteration`; `runLoop n` is the state
  after `n` iterations;
* `uint32_t` products are taken modulo `2 ^ 32`, a division by zero and an
  out-of-range `poseBuffer[i]` are explicit faults;
* `float`s are carried as bit patterns, since the program only copies them;
* the OpenCV calls on pixels (`cvtColor`, `putText`, `imshow`, `imwrite`) are
  taken to return normally on an image that was created, and their effect on
  pixel values is not modelled: a stored image is the byte buffer the device
  filled, kept together with the header that the same call returned;
* `cv::cvtColor` on an image that was never created (line 180 after the
  `else` branch of lines 167-170) raises an OpenCV exception, which `main` does
  not catch: the program ends there and line 182 is not reached.
-/

namespace OpenVRTest

/-! ## Data -/

/-- Number of values of a `uint32_t`. -/
def UINT32_RANGE : Nat := 2 ^ 32

/-- A `float`, carried as its bit pattern. -/
abbrev Float32 := Nat

/-- The two image types `main` creates. -/
inductive MatType
  | CV_8UC3
  | CV_8UC4
  deriving DecidableEq, Repr

/-- The tracking results `main` tells apart: `TrackingResult_Running_OK` and
every other value of `vr::ETrackingResult`. -/
inductive ETrackingResult
  | TrackingResult_Running_OK
  | other (code : Nat)
  deriving DecidableEq, Repr

/-- The C array `float m[3][4]` of `vr::HmdMatrix34_t`. -/
structure HmdMatrix34_t where
  m : Fin 3 → Fin 4 → Float32

/-- The fields of `vr::TrackedDevicePose_t` that `main` reads. -/
structure TrackedDevicePose_t where
  mDeviceToAbsoluteTracking : HmdMatrix34_t
  eTrackingResult : ETrackingResult
  bPoseIsValid : Bool

/-- The fields of `vr::CameraVideoStreamFrameHeader_t` that `main` reads. -/
structure CameraVideoStreamFrameHeader_t where
  nFrameSequence : Nat
  standingTrackedDevicePose : TrackedDevicePose_t

/-- A 3x4 `cv::Mat` of `float`, row by row. -/
abbrev PoseMat := List (List Float32)

/-- An element of `imgBuffer`: the clone of `image` taken on line 182, with
the type `image.create` gave the buffer, the bytes the device wrote, and the
header the same `GetVideoStreamFrameBuffer` call filled in. -/
structure Frame where
  type : Option MatType
  data : List Nat
  frameHeader : CameraVideoStreamFrameHeader_t

/-- Device sequence number of a stored frame. -/
def Frame.seq (f : Frame) : Nat := f.frameHeader.nFrameSequence

/-! ## The camera -/

/-- What one call of `GetVideoStreamFrameBuffer` gives back: an error code
other than `VRTrackedCameraError_None`, or a header with the pixel bytes
(the bytes are ignored by a header-only call). -/
inductive PollReply
  | failed
  | frame (frameHeader : CameraVideoStreamFrameHeader_t) (pixels : List Nat)

/-- A camera: `GetVideoStreamFrameBuffer s wantPixels` is the reply to a call
made in device state `s` and the state after it, `none` when the call never
returns. `wantPixels` is `false` for the header-only call of line 147 and
`true` for the call of line 173. -/
structure Device (σ : Type) where
  GetVideoStreamFrameBuffer : σ → Bool → Option (PollReply × σ)

/-- A camera that replays a list of replies, one per call, in call order. -/
def scripted : Device (List PollReply) where
  GetVideoStreamFrameBuffer s _ :=
    match s with
    | [] => none
    | r :: rest => some (r, rest)

/-- State of a camera that shows a stream of frames: the frame the last
header-only call reported, and the frames still to come. -/
structure Latch where
  held : Option (CameraVideoStreamFrameHeader_t × List Nat)
  stream : List (CameraVideoStreamFrameHeader_t × List Nat)

/-- A camera whose header-only call reports the next frame of the stream and
whose full call returns that same frame. -/
def latching : Device Latch where
  GetVideoStreamFrameBuffer s wantPixels :=
    if wantPixels then
      match s.held with
      | none => none
      | some f => some (PollReply.frame f.1 f.2, s)
    else
      match s.stream with
      | [] => none
      | f :: rest => some (PollReply.frame f.1 f.2, { held := some f, stream := rest })

/-! ## Program state -/

/-- Where control is, seen from the head of the capture loop. -/
inductive Control
  | looping
  | leftLoop
  | returned (code : Nat)
  | awaiting
  | divisionByZero
  | uncaughtException
  deriving DecidableEq, Repr

/-- The variables of `main` that the capture loop reads or writes, the device
state, the number of `GetVideoStreamFrameBuffer` calls made so far and the
control state. -/
structure Capture (σ : Type) where
  m_pVRTrackedCamera : Bool
  m_hTrackedCamera : Nat
  m_nCameraFrameWidth : Nat
  m_nCameraFrameHeight : Nat
  m_nCameraFrameBufferSize : Nat
  m_nFocalLength : Float32 × Float32
  m_nCenter : Float32 × Float32
  m_nLastFrameSequence : Nat
  image : Option MatType
  imgBuffer : List Frame
  poseBuffer : List PoseMat
  device : σ
  nPolls : Nat
  control : Control

/-! ## Layout inference (lines 113-124 and 159-170) -/

/-- The quotient `m_nCameraFrameBufferSize / (m_nCameraFrameHeight*m_nCameraFrameWidth)`
in `uint32_t` arithmetic; `none` is the division by zero. -/
def frameQuotient (width height bufferSize : Nat) : Option Nat :=
  if (height * width) % UINT32_RANGE = 0 then none
  else some (bufferSize / ((height * width) % UINT32_RANGE))

/-- The `if / else if / else` around `image.create`: the type of `image`
afterwards. In the last branch only a message is printed and `image` stays as
it was. `none` is the division by zero. -/
def createImage (image : Option MatType) (width height bufferSize : Nat) :
    Option (Option MatType) :=
  match frameQuotient width height bufferSize with
  | none => none
  | some q =>
    if q = 4 then some (some MatType.CV_8UC4)
    else if q = 3 then some (some MatType.CV_8UC3)
    else some image

/-! ## The capture loop (lines 133-212) -/

/-- The test of line 186, negated: the pose is valid and tracking is running. -/
def poseUsable (h : CameraVideoStreamFrameHeader_t) : Bool :=
  h.standingTrackedDevicePose.bPoseIsValid &&
    decide (h.standingTrackedDevicePose.eTrackingResult = ETrackingResult.TrackingResult_Running_OK)

/-- Row `i` of the matrix filled on lines 201-204. -/
def poseRow (M : HmdMatrix34_t) (i : Fin 3) : List Float32 :=
  [M.m i 0, M.m i 1, M.m i 2, M.m i 3]

/-- The `Mat pose(3, 4, CV_32F)` filled by the loop of lines 193-205. -/
def poseMat (h : CameraVideoStreamFrameHeader_t) : PoseMat :=
  [poseRow h.standingTrackedDevicePose.mDeviceToAbsoluteTracking 0,
   poseRow h.standingTrackedDevicePose.mDeviceToAbsoluteTracking 1,
   poseRow h.standingTrackedDevicePose.mDeviceToAbsoluteTracking 2]

/-- Lines 180-211, after a full poll that succeeded with header `h` and
pixels `px`. -/
def storeFrame {σ : Type} (c : Capture σ) (h : CameraVideoStreamFrameHeader_t)
    (px : List Nat) : Capture σ :=
  { c with
    imgBuffer := c.imgBuffer ++ [{ type := c.image, data := px, frameHeader := h }]
    m_nLastFrameSequence := h.nFrameSequence
    poseBuffer := if poseUsable h then c.poseBuffer ++ [poseMat h] else c.poseBuffer }

/-- Lines 159-211: the frame has changed. After a full poll that succeeded,
`cv::cvtColor` (line 180) runs on `image`: on an image that was never created
it throws and `main` ends with the exception uncaught; otherwise the frame is
stored. -/
def copyFrame {σ : Type} (dev : Device σ) (c : Capture σ) : Capture σ :=
  match createImage c.image c.m_nCameraFrameWidth c.m_nCameraFrameHeight
      c.m_nCameraFrameBufferSize with
  | none => { c with control := Control.divisionByZero }
  | some ty =>
    match dev.GetVideoStreamFrameBuffer c.device true with
    | none => { c with image := ty, control := Control.awaiting }
    | some (PollReply.failed, d) =>
      { c with image := ty, device := d, nPolls := c.nPolls + 1, control := Control.returned 1 }
    | some (PollReply.frame h px, d) =>
      match ty with
      | none =>
        { c with image := none, device := d, nPolls := c.nPolls + 1,
                 control := Control.uncaughtException }
      | some _ => storeFrame { c with image := ty, device := d, nPolls := c.nPolls + 1 } h px

/-- One pass through the body of `while (true)`; a state that is not at the
head of the loop stays as it is. -/
def loopIteration {σ : Type} (target : Nat) (dev : Device σ) (c : Capture σ) : Capture σ :=
  match c.control with
  | Control.looping =>
    if c.imgBuffer.length = target then { c with control := Control.leftLoop }
    else if !c.m_pVRTrackedCamera || c.m_hTrackedCamera = 0 then
      { c with control := Control.returned 1 }
    else
      match dev.GetVideoStreamFrameBuffer c.device false with
      | none => { c with control := Control.awaiting }
      | some (PollReply.failed, d) =>
        { c with device := d, nPolls := c.nPolls + 1, control := Control.returned 1 }
      | some (PollReply.frame h _, d) =>
        if h.nFrameSequence = c.m_nLastFrameSequence then
          { c with device := d, nPolls := c.nPolls + 1 }
        else copyFrame dev { c with device := d, nPolls := c.nPolls + 1 }
  | _ => c

/-- The state after `n` passes through the loop body. -/
def runLoop {σ : Type} (target : Nat) (dev : Device σ) (n : Nat) (c : Capture σ) : Capture σ :=
  (loopIteration target dev)^[n] c

/-! ## Export (lines 214-234) -/

/-- What the export has written: the frame count, the camera matrix, the
images by file index, the pose matrices by key index, and the index of an
access to `poseBuffer` past its end, if one was made. -/
structure Dataset where
  nr_of_frames : Nat
  Camera_Matrix : List (List Float32)
  images : List (Nat × Frame)
  poses : List (Nat × PoseMat)
  outOfRange : Option Nat

/-- Bit pattern of `0.0f`. -/
def zeroF : Float32 := 0

/-- Bit pattern of `1.0f`. -/
def oneF : Float32 := 0x3F800000

/-- Lines 214-220. -/
def cameraMatrix (focal center : Float32 × Float32) : List (List Float32) :=
  [[focal.1, zeroF, center.1], [zeroF, focal.2, center.2], [zeroF, zeroF, oneF]]

/-- The loop of lines 226-234 from index `i` on, over the images still to be
written. -/
def exportLoop (poseBuffer : List PoseMat) : Nat → List Frame → Dataset → Dataset
  | _, [], ds => ds
  | i, img :: rest, ds =>
    match poseBuffer.get? i with
    | none => { ds with images := ds.images ++ [(i, img)], outOfRange := some i }
    | some p =>
      exportLoop poseBuffer (i + 1) rest
        { ds with images := ds.images ++ [(i, img)], poses := ds.poses ++ [(i, p)] }

/-- Lines 214-234 on the buffers the loop left. -/
def exportDataset {σ : Type} (c : Capture σ) : Dataset :=
  exportLoop c.poseBuffer 0 c.imgBuffer
    { nr_of_frames := c.imgBuffer.length
      Camera_Matrix := cameraMatrix c.m_nFocalLength c.m_nCenter
      images := []
      poses := []
      outOfRange := none }

/-! ## Start-up (lines 55-131) and `main` -/

/-- The answers of the OpenVR runtime to the start-up calls of `main`.
`INVALID_TRACKED_CAMERA_HANDLE` is the constant of `openvr.h` that line 127
compares the handle with. -/
structure Runtime where
  initOk : Bool
  trackedCamera : Bool
  hasCameraOk : Bool
  bHasCamera : Bool
  firmwareOk : Bool
  frameSizeOk : Bool
  width : Nat
  height : Nat
  bufferSize : Nat
  intrinsicsOk : Bool
  focalLength : Float32 × Float32
  center : Float32 × Float32
  handle : Nat
  INVALID_TRACKED_CAMERA_HANDLE : Nat

/-- How a run of `main` ends, or where it is after the iterations looked at. -/
inductive Outcome
  | exit (code : Nat)
  | exported (ds : Dataset)
  | stillLooping
  | awaiting
  | divisionByZero
  | uncaughtException

/-- Lines 55-131: either `main` is over, or the capture loop is entered in the
state given. -/
def startUp {σ : Type} (rt : Runtime) (d0 : σ) : Except Outcome (Capture σ) :=
  if !rt.initOk then Except.error (Outcome.exit 1)
  else if !rt.trackedCamera then Except.error (Outcome.exit 1)
  else if !rt.hasCameraOk || !rt.bHasCamera then Except.error (Outcome.exit 1)
  else if !rt.firmwareOk then Except.error (Outcome.exit 1)
  else if !rt.frameSizeOk then Except.error (Outcome.exit 1)
  else if !rt.intrinsicsOk then Except.error (Outcome.exit 1)
  else
    match createImage none rt.width rt.height rt.bufferSize with
    | none => Except.error Outcome.divisionByZero
    | some ty =>
      if rt.handle = rt.INVALID_TRACKED_CAMERA_HANDLE then Except.error (Outcome.exit 1)
      else Except.ok
        { m_pVRTrackedCamera := true
          m_hTrackedCamera := rt.handle
          m_nCameraFrameWidth := rt.width
          m_nCameraFrameHeight := rt.height
          m_nCameraFrameBufferSize := rt.bufferSize
          m_nFocalLength := rt.focalLength
          m_nCenter := rt.center
          m_nLastFrameSequence := 0
          image := ty
          imgBuffer := []
          poseBuffer := []
          device := d0
          nPolls := 0
          control := Control.looping }

/-- What follows the loop: the export and `return 0` after `break`, the
return code after a `return` inside the loop. -/
def finish {σ : Type} (c : Capture σ) : Outcome :=
  match c.control with
  | Control.looping => Outcome.stillLooping
  | Control.leftLoop => Outcome.exported (exportDataset c)
  | Control.returned code => Outcome.exit code
  | Control.awaiting => Outcome.awaiting
  | Control.divisionByZero => Outcome.divisionByZero
  | Control.uncaughtException => Outcome.uncaughtException

/-- The program with the frame count of line 136 as a parameter, looked at
after `n` passes through the loop body. -/
def mainWith {σ : Type} (target : Nat) (dev : Device σ) (rt : Runtime) (d0 : σ) (n : Nat) :
    Outcome :=
  match startUp rt d0 with
  | Except.error o => o
  | Except.ok c => finish (runLoop target dev n c)

/-- The program of `src/main.cpp`: the loop stops at one hundred frames. -/
def main {σ : Type} (dev : Device σ) (rt : Runtime) (d0 : σ) (n : Nat) : Outcome :=
  mainWith 100 dev rt d0 n


/-! ## Device failure -/

/-- Whether the pass that starts in state `c` meets a device failure, in the
order the loop body tests: the handle check of line 139 fails; else the
header-only call reports an error; else that call reports a sequence number
other than the last stored one and the full call reports an error. -/
def deviceFailure {σ : Type} (dev : Device σ) (c : Capture σ) : Bool :=
  if !c.m_pVRTrackedCamera || c.m_hTrackedCamera = 0 then true
  else
    match dev.GetVideoStreamFrameBuffer c.device false with
    | none => false
    | some (PollReply.failed, _) => true
    | some (PollReply.frame h _, d) =>
      if h.nFrameSequence = c.m_nLastFrameSequence then false
      else
        match dev.GetVideoStreamFrameBuffer d true with
        | some (PollReply.failed, _) => true
        | _ => false

/-! ## Sample inputs -/

/-- A header with sequence number `seq`, tracking running, pose validity
`valid`, and a transform whose entries depend on `seq` and the position. -/
def sampleHeader (seq : Nat) (valid : Bool) : CameraVideoStreamFrameHeader_t :=
  { nFrameSequence := seq
    standingTrackedDevicePose :=
      { mDeviceToAbsoluteTracking := { m := fun i j => 100 * seq + 4 * i.val + j.val }
        eTrackingResult := ETrackingResult.TrackingResult_Running_OK
        bPoseIsValid := valid } }

/-- A runtime whose start-up calls all succeed: a 2x2 frame of 4 bytes per
pixel and handle 1. -/
def sampleRuntime : Runtime :=
  { initOk := true
    trackedCamera := true
    hasCameraOk := true
    bHasCamera := true
    firmwareOk := true
    frameSizeOk := true
    width := 2
    height := 2
    bufferSize := 16
    intrinsicsOk := true
    focalLength := (7, 8)
    center := (1, 1)
    handle := 1
    INVALID_TRACKED_CAMERA_HANDLE := 0 }

/-- The state in which `main` enters the loop under `sampleRuntime`. -/
def sampleEntry {σ : Type} (d0 : σ) : Capture σ :=
  { m_pVRTrackedCamera := true
    m_hTrackedCamera := 1
    m_nCameraFrameWidth := 2
    m_nCameraFrameHeight := 2
    m_nCameraFrameBufferSize := 16
    m_nFocalLength := (7, 8)
    m_nCenter := (1, 1)
    m_nLastFrameSequence := 0
    image := some MatType.CV_8UC4
    imgBuffer := []
    poseBuffer := []
    device := d0
    nPolls := 0
    control := Control.looping }

/-- A stream of frames with the given sequence numbers, all with a valid pose. -/
def sampleStream (seqs : List Nat) : Latch :=
  { held := none, stream := seqs.map fun s => (sampleHeader s true, [s]) }

/-- One hundred frames numbered 1 to 100; all have a valid pose but the first. -/
def firstInvalidStream : Latch :=
  { held := none
    stream := (List.range 100).map fun k => (sampleHeader (k + 1) (decide (k ≠ 0)), [k]) }

/-- One hundred frames numbered 1 to 100; all have a valid pose but the second. -/
def secondInvalidStream : Latch :=
  { held := none
    stream := (List.range 100).map fun k => (sampleHeader (k + 1) (decide (k ≠ 1)), [k]) }

/-- The sample runtime with a frame buffer of 20 bytes for the 2x2 frame:
five bytes per pixel. -/
def fiveBytesRuntime : Runtime :=
  { sampleRuntime with bufferSize := 20 }

/-- A script in which every call succeeds: the replies carry the given
sequence numbers, in call order. -/
def sampleScript (seqs : List Nat) : List PollReply :=
  seqs.map fun s => PollReply.frame (sampleHeader s true) [s]

/-- A script that delivers the frame numbered 5, then reports an error to the
next header-only call, and has the frame numbered 6 ready after that. -/
def failingScript : List PollReply :=
  sampleScript [5, 5] ++ PollReply.failed :: sampleScript [6, 6]

/-! ## Sequence numbers -/

/-- Sequence numbers of the frames of a stream. -/
def streamSeqs (s : List (CameraVideoStreamFrameHeader_t × List Nat)) : List Nat :=
  s.map fun f => f.1.nFrameSequence

/-- Sequence numbers carried by the replies of a script, in call order; an
error reply carries none. -/
def scriptSeqs : List PollReply → List Nat
  | [] => []
  | PollReply.failed :: rest => scriptSeqs rest
  | PollReply.frame h _ :: rest => h.nFrameSequence :: scriptSeqs rest

/-- Sequence numbers of the stored frames, in capture order. -/
def storedSeqs {σ : Type} (c : Capture σ) : List Nat :=
  c.imgBuffer.map Frame.seq

/-- From the words of the specification: a list with each run of consecutive
equal entries collapsed to a single entry. -/
def collapseRuns : List Nat → List Nat
  | [] => []
  | [x] => [x]
  | x :: y :: rest => if x = y then collapseRuns (y :: rest) else x :: collapseRuns (y :: rest)

/-- The entries of a list that differ from the entry kept before them, `last`
standing for the entry kept before the first. -/
def keepChanges (last : Nat) : List Nat → List Nat
  | [] => []
  | x :: rest => if x = last then keepChanges last rest else x :: keepChanges x rest

/-! ## General facts about the loop -/

theorem runLoop_succ {σ : Type} (t : Nat) (dev : Device σ) (n : Nat) (c : Capture σ) :
    runLoop t dev (n + 1) c = loopIteration t dev (runLoop t dev n c) := by
  unfold runLoop
  exact Function.iterate_succ_apply' _ _ _

theorem runLoop_succ_front {σ : Type} (t : Nat) (dev : Device σ) (n : Nat) (c : Capture σ) :
    runLoop t dev (n + 1) c = runLoop t dev n (loopIteration t dev c) := by
  unfold runLoop
  exact Function.iterate_succ_apply _ _ _

theorem runLoop_add {σ : Type} (t : Nat) (dev : Device σ) (m n : Nat) (c : Capture σ) :
    runLoop t dev (m + n) c = runLoop t dev n (runLoop t dev m c) := by
  unfold runLoop
  rw [Nat.add_comm, Function.iterate_add_apply]

theorem loopIteration_idle {σ : Type} (t : Nat) (dev : Device σ) (c : Capture σ)
    (h : c.control ≠ Control.looping) : loopIteration t dev c = c := by
  unfold loopIteration
  split
  · contradiction
  · rfl

theorem runLoop_idle {σ : Type} (t : Nat) (dev : Device σ) (n : Nat) (c : Capture σ)
    (h : c.control ≠ Control.looping) : runLoop t dev n c = c := by
  induction n with
  | zero => rfl
  | succ n ih => rw [runLoop_succ, ih, loopIteration_idle t dev c h]

/-- What one pass does to the buffers: nothing, or one frame is stored. -/
theorem loopIteration_effect {σ : Type} (t : Nat) (dev : Device σ) (c : Capture σ) :
    ((loopIteration t dev c).imgBuffer = c.imgBuffer ∧
      (loopIteration t dev c).poseBuffer = c.poseBuffer ∧
      (loopIteration t dev c).m_nLastFrameSequence = c.m_nLastFrameSequence ∧
      ((loopIteration t dev c).device = c.device ∨
        (∃ r, dev.GetVideoStreamFrameBuffer c.device false
            = some (r, (loopIteration t dev c).device)) ∨
        (∃ r d r2, dev.GetVideoStreamFrameBuffer c.device false = some (r, d) ∧
          dev.GetVideoStreamFrameBuffer d true
            = some (r2, (loopIteration t dev c).device)))) ∨
    (c.control = Control.looping ∧ c.imgBuffer.length ≠ t ∧
      (loopIteration t dev c).control = Control.looping ∧
      ∃ h0 px0 d1 h px,
        dev.GetVideoStreamFrameBuffer c.device false = some (PollReply.frame h0 px0, d1) ∧
        h0.nFrameSequence ≠ c.m_nLastFrameSequence ∧
        dev.GetVideoStreamFrameBuffer d1 true
          = some (PollReply.frame h px, (loopIteration t dev c).device) ∧
        (loopIteration t dev c).imgBuffer
          = c.imgBuffer ++ [{ type := (loopIteration t dev c).image, data := px, frameHeader := h }] ∧
        (loopIteration t dev c).poseBuffer
          = (if poseUsable h then c.poseBuffer ++ [poseMat h] else c.poseBuffer) ∧
        (loopIteration t dev c).m_nLastFrameSequence = h.nFrameSequence) := by
  unfold loopIteration
  split
  · rename_i hc
    split
    · left; simp
    · split
      · left; simp
      · split
        · left; simp
        · rename_i d hp
          left; simp [hp]
        · rename_i h0 px0 d1 hp
          split
          · left; simp [hp]
          · rename_i hne
            unfold copyFrame
            split
            · left; simp [hp]
            · split
              · left; simp [hp]
              · rename_i d2 hp2
                left
                simp only [true_and]
                right; right
                exact ⟨_, _, _, hp, hp2⟩
              · rename_i h px d2 hp2
                split
                · left
                  simp only [true_and]
                  right; right
                  exact ⟨_, _, _, hp, hp2⟩
                · right
                  refine ⟨hc, by assumption, by simp [storeFrame, hc], h0, px0, d1, h, px, hp, hne,
                    ?_, ?_, ?_, ?_⟩
                  · simpa [storeFrame] using hp2
                  · simp [storeFrame]
                  · simp [storeFrame]
                  · simp [storeFrame]
  · left; simp


/-- The loop does not write the handle, the frame geometry or the intrinsics. -/
theorem loopIteration_consts {σ : Type} (t : Nat) (dev : Device σ) (c : Capture σ) :
    (loopIteration t dev c).m_pVRTrackedCamera = c.m_pVRTrackedCamera ∧
    (loopIteration t dev c).m_hTrackedCamera = c.m_hTrackedCamera ∧
    (loopIteration t dev c).m_nCameraFrameWidth = c.m_nCameraFrameWidth ∧
    (loopIteration t dev c).m_nCameraFrameHeight = c.m_nCameraFrameHeight ∧
    (loopIteration t dev c).m_nCameraFrameBufferSize = c.m_nCameraFrameBufferSize ∧
    (loopIteration t dev c).m_nFocalLength = c.m_nFocalLength ∧
    (loopIteration t dev c).m_nCenter = c.m_nCenter := by
  unfold loopIteration copyFrame storeFrame
  repeat' split
  all_goals simp

/-- Once `image` has the type the geometry asks for, the loop keeps it. -/
theorem loopIteration_image {σ : Type} (t : Nat) (dev : Device σ) (c : Capture σ)
    (h : createImage c.image c.m_nCameraFrameWidth c.m_nCameraFrameHeight
      c.m_nCameraFrameBufferSize = some c.image) :
    (loopIteration t dev c).image = c.image := by
  unfold loopIteration copyFrame storeFrame
  simp only [h]
  repeat' split
  all_goals simp_all

/-- The state in which the loop is entered. -/
theorem startUp_ok {σ : Type} (rt : Runtime) (d0 : σ) (c0 : Capture σ)
    (h : startUp rt d0 = Except.ok c0) :
    c0.m_pVRTrackedCamera = true ∧ c0.m_hTrackedCamera = rt.handle ∧
    c0.m_nCameraFrameWidth = rt.width ∧ c0.m_nCameraFrameHeight = rt.height ∧
    c0.m_nCameraFrameBufferSize = rt.bufferSize ∧
    c0.m_nFocalLength = rt.focalLength ∧ c0.m_nCenter = rt.center ∧
    c0.m_nLastFrameSequence = 0 ∧ c0.imgBuffer = [] ∧ c0.poseBuffer = [] ∧
    c0.device = d0 ∧ c0.nPolls = 0 ∧ c0.control = Control.looping ∧
    createImage none rt.width rt.height rt.bufferSize = some c0.image ∧
    rt.handle ≠ rt.INVALID_TRACKED_CAMERA_HANDLE := by
  unfold startUp at h
  repeat' split at h
  all_goals cases h
  simp_all

/-- Creating the image again over the type it already has gives that type. -/
theorem createImage_again (w h b : Nat) (ty : Option MatType)
    (hty : createImage none w h b = some ty) : createImage ty w h b = some ty := by
  unfold createImage at hty ⊢
  split at hty
  · exact absurd hty (by simp)
  · rename_i q hq
    by_cases h4 : q = 4
    · simp_all
    · by_cases h3 : q = 3
      · simp_all
      · simp_all

/-- What holds of the session variables in every state of a run of `main`. -/
theorem runLoop_session {σ : Type} (t : Nat) (dev : Device σ) (rt : Runtime) (d0 : σ)
    (c0 : Capture σ) (h0 : startUp rt d0 = Except.ok c0) (n : Nat) :
    (runLoop t dev n c0).m_pVRTrackedCamera = true ∧
    (runLoop t dev n c0).m_hTrackedCamera = rt.handle ∧
    (runLoop t dev n c0).m_nCameraFrameWidth = rt.width ∧
    (runLoop t dev n c0).m_nCameraFrameHeight = rt.height ∧
    (runLoop t dev n c0).m_nCameraFrameBufferSize = rt.bufferSize ∧
    (runLoop t dev n c0).m_nFocalLength = rt.focalLength ∧
    (runLoop t dev n c0).m_nCenter = rt.center ∧
    createImage none rt.width rt.height rt.bufferSize = some (runLoop t dev n c0).image ∧
    ∀ f ∈ (runLoop t dev n c0).imgBuffer, f.type = (runLoop t dev n c0).image := by
  obtain ⟨s1, s2, s3, s4, s5, s6, s7, _, s9, _, _, _, _, s14, _⟩ := startUp_ok rt d0 c0 h0
  induction n with
  | zero =>
    refine ⟨s1, s2, s3, s4, s5, s6, s7, s14, ?_⟩
    intro f hf
    have : (runLoop t dev 0 c0).imgBuffer = [] := s9
    rw [this] at hf
    exact absurd hf (List.not_mem_nil f)
  | succ n ih =>
    obtain ⟨i1, i2, i3, i4, i5, i6, i7, i8, i9⟩ := ih
    rw [runLoop_succ]
    obtain ⟨k1, k2, k3, k4, k5, k6, k7⟩ := loopIteration_consts t dev (runLoop t dev n c0)
    have hagain := createImage_again _ _ _ _ i8
    have himg : (loopIteration t dev (runLoop t dev n c0)).image = (runLoop t dev n c0).image := by
      apply loopIteration_image
      rw [i3, i4, i5]
      exact hagain
    refine ⟨k1.trans i1, k2.trans i2, k3.trans i3, k4.trans i4, k5.trans i5, k6.trans i6,
      k7.trans i7, by rw [himg]; exact i8, ?_⟩
    intro f hf
    rw [himg]
    rcases loopIteration_effect t dev (runLoop t dev n c0) with ⟨e1, _⟩ | ⟨_, _, _, _, _, _, _, _, _, _, _, e, _⟩
    · rw [e1] at hf
      exact i9 f hf
    · rw [e, himg] at hf
      rcases List.mem_append.mp hf with hf | hf
      · exact i9 f hf
      · rw [List.mem_singleton] at hf
        rw [hf]


/-! ## Size of the image buffer -/

theorem exportLoop_nr_of_frames (pb : List PoseMat) (imgs : List Frame) (i : Nat) (ds : Dataset) :
    (exportLoop pb i imgs ds).nr_of_frames = ds.nr_of_frames := by
  induction imgs generalizing i ds with
  | nil => rfl
  | cons img rest ih =>
    unfold exportLoop
    split
    · rfl
    · rw [ih]

theorem loopIteration_break_iff {σ : Type} (t : Nat) (dev : Device σ) (c : Capture σ)
    (hc : c.control = Control.looping) :
    (loopIteration t dev c).control = Control.leftLoop ↔ c.imgBuffer.length = t := by
  unfold loopIteration copyFrame storeFrame
  simp only [hc]
  repeat' split
  all_goals simp_all

theorem loopIteration_at_target {σ : Type} (t : Nat) (dev : Device σ) (c : Capture σ)
    (hlen : c.imgBuffer.length = t) :
    (loopIteration t dev c).nPolls = c.nPolls ∧ (loopIteration t dev c).device = c.device := by
  unfold loopIteration
  split
  · simp [hlen]
  · simp

theorem loopIteration_polls {σ : Type} (t : Nat) (dev : Device σ) (c : Capture σ)
    (hc : c.control = Control.looping) (hlen : c.imgBuffer.length ≠ t)
    (hp : c.m_pVRTrackedCamera = true) (hh : c.m_hTrackedCamera ≠ 0) :
    c.nPolls < (loopIteration t dev c).nPolls ∨
      (loopIteration t dev c).control = Control.awaiting := by
  unfold loopIteration copyFrame storeFrame
  simp only [hc]
  repeat' split
  all_goals first
    | (simp_all; done)
    | (simp_all; omega)

/-- The buffer never holds more than the target, and the loop is left only
with a full buffer. -/
theorem runLoop_length {σ : Type} (t : Nat) (dev : Device σ) (c0 : Capture σ)
    (hi : c0.imgBuffer = []) (hc : c0.control = Control.looping) (n : Nat) :
    (runLoop t dev n c0).imgBuffer.length ≤ t ∧
    ((runLoop t dev n c0).control = Control.leftLoop →
      (runLoop t dev n c0).imgBuffer.length = t) := by
  induction n with
  | zero =>
    have h1 : (runLoop t dev 0 c0).imgBuffer = [] := hi
    have h2 : (runLoop t dev 0 c0).control = Control.looping := hc
    rw [h1, h2]
    simp
  | succ n ih =>
    obtain ⟨ih1, ih2⟩ := ih
    rw [runLoop_succ]
    by_cases hl : (runLoop t dev n c0).control = Control.looping
    · rcases loopIteration_effect t dev (runLoop t dev n c0) with
        ⟨e1, _⟩ | ⟨_, hne, hlo, _, _, _, _, _, _, _, _, e, _⟩
      · rw [e1]
        exact ⟨ih1, fun hb => (loopIteration_break_iff t dev _ hl).mp hb⟩
      · rw [e, hlo]
        simp only [List.length_append, List.length_singleton]
        exact ⟨by omega, fun hb => by cases hb⟩
    · rw [loopIteration_idle t dev _ hl]
      exact ⟨ih1, ih2⟩

/-- C2. In every state of a run of `main` the image buffer holds at most
100 frames; one pass through the loop body leaves the buffer as it is or
appends one frame; a pass that starts at the head of the loop takes the
`break` exactly when the buffer holds 100 frames, makes no device call in
that case, and in the other case (with a non-zero handle) makes a device call;
and when the export runs, the buffer holds exactly 100 frames and
`nr_of_frames` is written as 100. -/
theorem bounded_size {σ : Type} (dev : Device σ) (rt : Runtime) (d0 : σ) (c0 : Capture σ)
    (h0 : startUp rt d0 = Except.ok c0) (n : Nat) :
    (runLoop 100 dev n c0).imgBuffer.length ≤ 100 ∧
    ((runLoop 100 dev (n + 1) c0).imgBuffer = (runLoop 100 dev n c0).imgBuffer ∨
      ∃ f, (runLoop 100 dev (n + 1) c0).imgBuffer = (runLoop 100 dev n c0).imgBuffer ++ [f]) ∧
    ((runLoop 100 dev n c0).control = Control.looping →
      ((runLoop 100 dev (n + 1) c0).control = Control.leftLoop ↔
        (runLoop 100 dev n c0).imgBuffer.length = 100)) ∧
    ((runLoop 100 dev n c0).imgBuffer.length = 100 →
      (runLoop 100 dev (n + 1) c0).nPolls = (runLoop 100 dev n c0).nPolls) ∧
    ((runLoop 100 dev n c0).control = Control.looping →
      (runLoop 100 dev n c0).imgBuffer.length ≠ 100 → rt.handle ≠ 0 →
      (runLoop 100 dev n c0).nPolls < (runLoop 100 dev (n + 1) c0).nPolls ∨
        (runLoop 100 dev (n + 1) c0).control = Control.awaiting) ∧
    (∀ ds, main dev rt d0 n = Outcome.exported ds →
      (runLoop 100 dev n c0).imgBuffer.length = 100 ∧ ds.nr_of_frames = 100) := by
  obtain ⟨_, _, _, _, _, _, _, _, s9, _, _, _, s13, _, _⟩ := startUp_ok rt d0 c0 h0
  obtain ⟨hle, hleft⟩ := runLoop_length 100 dev c0 s9 s13 n
  obtain ⟨r1, r2, _⟩ := runLoop_session 100 dev rt d0 c0 h0 n
  refine ⟨hle, ?_, ?_, ?_, ?_, ?_⟩
  · rw [runLoop_succ]
    rcases loopIteration_effect 100 dev (runLoop 100 dev n c0) with
      ⟨e1, _⟩ | ⟨_, _, _, _, _, _, _, _, _, _, _, e, _⟩
    · exact Or.inl e1
    · exact Or.inr ⟨_, e⟩
  · intro hl
    rw [runLoop_succ]
    exact loopIteration_break_iff 100 dev _ hl
  · intro hlen
    rw [runLoop_succ]
    exact (loopIteration_at_target 100 dev _ hlen).1
  · intro hl hlen hh
    rw [runLoop_succ]
    exact loopIteration_polls 100 dev _ hl hlen r1 (by rw [r2]; exact hh)
  · intro ds hds
    unfold main mainWith at hds
    rw [h0] at hds
    simp only at hds
    unfold finish at hds
    split at hds
    all_goals cases hds
    rename_i hb
    have hlen := hleft hb
    refine ⟨hlen, ?_⟩
    unfold exportDataset
    rw [exportLoop_nr_of_frames]
    exact hlen

/-- The hypothesis of `bounded_size` holds of the sample runtime, and the
theorem applies to the state after seven passes over a stream of six frames. -/
theorem bounded_size_witness :
    startUp sampleRuntime (sampleStream [5, 5, 6, 6, 6, 7])
        = Except.ok (sampleEntry (sampleStream [5, 5, 6, 6, 6, 7])) ∧
      (runLoop 100 latching 7 (sampleEntry (sampleStream [5, 5, 6, 6, 6, 7]))).imgBuffer.length
        ≤ 100 :=
  ⟨rfl, (bounded_size latching sampleRuntime (sampleStream [5, 5, 6, 6, 6, 7])
    (sampleEntry (sampleStream [5, 5, 6, 6, 6, 7])) rfl 7).1⟩


/-! ## The pose buffer -/

/-- The pose buffer holds the poses of the stored frames that passed the test
of line 186, in order. -/
theorem runLoop_poseBuffer {σ : Type} (t : Nat) (dev : Device σ) (c0 : Capture σ)
    (hi : c0.imgBuffer = []) (hp : c0.poseBuffer = []) (n : Nat) :
    (runLoop t dev n c0).poseBuffer
      = ((runLoop t dev n c0).imgBuffer.filter fun f => poseUsable f.frameHeader).map
          fun f => poseMat f.frameHeader := by
  induction n with
  | zero =>
    have h1 : (runLoop t dev 0 c0).imgBuffer = [] := hi
    have h2 : (runLoop t dev 0 c0).poseBuffer = [] := hp
    rw [h1, h2]
    rfl
  | succ n ih =>
    rw [runLoop_succ]
    rcases loopIteration_effect t dev (runLoop t dev n c0) with
      ⟨e1, e2, _⟩ | ⟨_, _, _, _, _, _, h, px, _, _, _, e1, e2, _⟩
    · rw [e1, e2]
      exact ih
    · rw [e1, e2, ih, List.filter_append, List.map_append]
      by_cases hu : poseUsable h = true
      · simp [hu, List.filter_cons]
      · simp [hu, List.filter_cons]

/-- The export reads past the end of the pose buffer unless there is a pose
for every image. -/
theorem exportLoop_outOfRange (pb : List PoseMat) (imgs : List Frame) (i : Nat) (ds : Dataset) :
    (exportLoop pb i imgs ds).outOfRange = none ↔
      ds.outOfRange = none ∧ (imgs = [] ∨ i + imgs.length ≤ pb.length) := by
  induction imgs generalizing i ds with
  | nil => simp [exportLoop]
  | cons img rest ih =>
    unfold exportLoop
    split
    · rename_i hget
      have hge : pb.length ≤ i := List.get?_eq_none.mp hget
      simp only [List.length_cons, reduceCtorEq, false_or, false_iff, not_and]
      intro _
      omega
    · rename_i p hget
      have hlt : i < pb.length := by
        by_contra hcon
        have : pb.get? i = none := List.get?_eq_none.mpr (by omega)
        rw [this] at hget
        cases hget
      rw [ih]
      simp only [List.length_cons, reduceCtorEq, false_or]
      constructor
      · rintro ⟨h1, h2 | h2⟩
        · subst h2
          exact ⟨h1, by simp; omega⟩
        · exact ⟨h1, by omega⟩
      · rintro ⟨h1, h2⟩
        exact ⟨h1, Or.inr (by omega)⟩

/-- C10. In every state of a run of `main`, `poseBuffer` is the list of the
poses of the stored frames whose header had a valid pose and tracking result
`Running_OK`, in capture order; so its size is the number of such frames, it
is at most `imgBuffer.size()`, the two sizes are equal exactly when every
stored frame had such a header, and every index below `imgBuffer.size()` is an
index of `poseBuffer` (the export makes no out-of-range access) exactly in
that case. -/
theorem pose_buffer_count {σ : Type} (t : Nat) (dev : Device σ) (rt : Runtime) (d0 : σ)
    (c0 : Capture σ) (h0 : startUp rt d0 = Except.ok c0) (n : Nat) :
    (runLoop t dev n c0).poseBuffer
      = ((runLoop t dev n c0).imgBuffer.filter fun f => poseUsable f.frameHeader).map
          (fun f => poseMat f.frameHeader) ∧
    (runLoop t dev n c0).poseBuffer.length
      = (runLoop t dev n c0).imgBuffer.countP (fun f => poseUsable f.frameHeader) ∧
    (runLoop t dev n c0).poseBuffer.length ≤ (runLoop t dev n c0).imgBuffer.length ∧
    ((runLoop t dev n c0).poseBuffer.length = (runLoop t dev n c0).imgBuffer.length ↔
      ∀ f ∈ (runLoop t dev n c0).imgBuffer, poseUsable f.frameHeader = true) ∧
    ((∀ i, i < (runLoop t dev n c0).imgBuffer.length →
        i < (runLoop t dev n c0).poseBuffer.length) ↔
      ∀ f ∈ (runLoop t dev n c0).imgBuffer, poseUsable f.frameHeader = true) ∧
    ((exportDataset (runLoop t dev n c0)).outOfRange = none ↔
      ∀ f ∈ (runLoop t dev n c0).imgBuffer, poseUsable f.frameHeader = true) := by
  obtain ⟨_, _, _, _, _, _, _, _, s9, s10, _⟩ := startUp_ok rt d0 c0 h0
  have hpb := runLoop_poseBuffer t dev c0 s9 s10 n
  have hlen : (runLoop t dev n c0).poseBuffer.length
      = (runLoop t dev n c0).imgBuffer.countP (fun f => poseUsable f.frameHeader) := by
    rw [hpb, List.length_map, List.countP_eq_length_filter]
  have hle := List.countP_le_length (fun f : Frame => poseUsable f.frameHeader)
    (l := (runLoop t dev n c0).imgBuffer)
  have hall := List.countP_eq_length (p := fun f : Frame => poseUsable f.frameHeader)
    (l := (runLoop t dev n c0).imgBuffer)
  refine ⟨hpb, hlen, by omega, ?_, ?_, ?_⟩
  · rw [hlen]
    exact hall
  · rw [← hall, ← hlen]
    constructor
    · intro h
      by_contra hne
      have hlt : (runLoop t dev n c0).poseBuffer.length
          < (runLoop t dev n c0).imgBuffer.length := by omega
      exact absurd (h _ hlt) (lt_irrefl _)
    · intro h i hi
      omega
  · unfold exportDataset
    rw [exportLoop_outOfRange, ← hall, ← hlen]
    simp only [true_and, Nat.zero_add]
    constructor
    · rintro (h | h)
      · have hz : (runLoop t dev n c0).imgBuffer.length = 0 := by rw [h]; rfl
        omega
      · omega
    · intro h
      exact Or.inr (by omega)

/-- The hypothesis of `pose_buffer_count` holds of the sample runtime, and the
theorem applies to the state after seven passes over a stream of six frames. -/
theorem pose_buffer_count_witness :
    startUp sampleRuntime (sampleStream [1, 2, 2, 3])
        = Except.ok (sampleEntry (sampleStream [1, 2, 2, 3])) ∧
      (runLoop 3 latching 5 (sampleEntry (sampleStream [1, 2, 2, 3]))).poseBuffer.length
        ≤ (runLoop 3 latching 5 (sampleEntry (sampleStream [1, 2, 2, 3]))).imgBuffer.length :=
  ⟨rfl, (pose_buffer_count 3 latching sampleRuntime (sampleStream [1, 2, 2, 3])
    (sampleEntry (sampleStream [1, 2, 2, 3])) rfl 5).2.2.1⟩


/-! ## Device failure is fatal -/

/-- A pass that meets a device failure ends in `return 1` with the buffers
as they were and at most two device calls made. -/
theorem loopIteration_failure {σ : Type} (t : Nat) (dev : Device σ) (c : Capture σ)
    (hc : c.control = Control.looping) (hlen : c.imgBuffer.length ≠ t)
    (himg : createImage c.image c.m_nCameraFrameWidth c.m_nCameraFrameHeight
      c.m_nCameraFrameBufferSize = some c.image)
    (hfail : deviceFailure dev c = true) :
    (loopIteration t dev c).control = Control.returned 1 ∧
    (loopIteration t dev c).imgBuffer = c.imgBuffer ∧
    (loopIteration t dev c).poseBuffer = c.poseBuffer ∧
    (loopIteration t dev c).nPolls ≤ c.nPolls + 2 := by
  unfold deviceFailure at hfail
  unfold loopIteration copyFrame
  simp only [hc, himg]
  split at hfail
  · rename_i hbad
    simp [hlen, hbad]
  · rename_i hgood
    simp only [hlen, hgood, if_false]
    split at hfail
    · cases hfail
    · rename_i d hp
      simp [hp]
    · rename_i h px d hp
      split at hfail
      · cases hfail
      · rename_i hne
        split at hfail
        · rename_i d2 hp2
          simp [hp, hne, hp2]
        · cases hfail

/-- The state after a pass that meets a device failure, case by case: only
the control state, the device state and the call count differ from the state
before, and the calls made are those up to the failing one. -/
theorem loopIteration_failure_state {σ : Type} (t : Nat) (dev : Device σ) (c : Capture σ)
    (hc : c.control = Control.looping) (hlen : c.imgBuffer.length ≠ t)
    (himg : createImage c.image c.m_nCameraFrameWidth c.m_nCameraFrameHeight
      c.m_nCameraFrameBufferSize = some c.image) :
    ((c.m_pVRTrackedCamera = false ∨ c.m_hTrackedCamera = 0) →
      loopIteration t dev c = { c with control := Control.returned 1 }) ∧
    (c.m_pVRTrackedCamera = true → c.m_hTrackedCamera ≠ 0 →
      ∀ d, dev.GetVideoStreamFrameBuffer c.device false = some (PollReply.failed, d) →
      loopIteration t dev c
        = { c with device := d, nPolls := c.nPolls + 1, control := Control.returned 1 }) ∧
    (c.m_pVRTrackedCamera = true → c.m_hTrackedCamera ≠ 0 →
      ∀ h px d d2,
      dev.GetVideoStreamFrameBuffer c.device false = some (PollReply.frame h px, d) →
      h.nFrameSequence ≠ c.m_nLastFrameSequence →
      dev.GetVideoStreamFrameBuffer d true = some (PollReply.failed, d2) →
      loopIteration t dev c
        = { c with device := d2, nPolls := c.nPolls + 2, control := Control.returned 1 }) := by
  refine ⟨?_, ?_, ?_⟩
  · intro hbad
    unfold loopIteration
    rcases hbad with hbad | hbad
    · simp [hc, hlen, hbad]
    · simp [hc, hlen, hbad]
  · intro hp hh d hpoll
    unfold loopIteration
    simp [hc, hlen, hp, hh, hpoll]
  · intro hp hh h px d d2 hpoll hne hpoll2
    unfold loopIteration copyFrame
    simp [hc, hlen, hp, hh, hpoll, hne, himg, hpoll2]

/-- C7. If, in some pass of a run of `main` that starts at the head of the
loop with the buffer not yet full, the handle check fails or the header-only
call or the full call reports an error, then the pass ends in `return 1`
with `imgBuffer` and `poseBuffer` as they were before it and at most two
device calls made in it; the state stays the same ever after (no further
call, nothing appended), and `main` ends with status 1 without exporting.
The state after the failing pass is the state before it with `return 1` taken
and exactly the calls up to the failing one made: no call when the handle
check fails; the header-only call alone, its device state kept, when that call
fails; the header-only call and the full call, the device state of the full
call kept, when the full call fails. -/
theorem device_failure_fatal {σ : Type} (t : Nat) (dev : Device σ) (rt : Runtime) (d0 : σ)
    (c0 : Capture σ) (h0 : startUp rt d0 = Except.ok c0) (k : Nat)
    (hloop : (runLoop t dev k c0).control = Control.looping)
    (hlen : (runLoop t dev k c0).imgBuffer.length ≠ t)
    (hfail : deviceFailure dev (runLoop t dev k c0) = true) (n : Nat) :
    (runLoop t dev (k + 1) c0).control = Control.returned 1 ∧
    (runLoop t dev (k + 1) c0).imgBuffer = (runLoop t dev k c0).imgBuffer ∧
    (runLoop t dev (k + 1) c0).poseBuffer = (runLoop t dev k c0).poseBuffer ∧
    (runLoop t dev (k + 1) c0).nPolls ≤ (runLoop t dev k c0).nPolls + 2 ∧
    runLoop t dev (k + 1 + n) c0 = runLoop t dev (k + 1) c0 ∧
    mainWith t dev rt d0 (k + 1 + n) = Outcome.exit 1 ∧
    (((runLoop t dev k c0).m_pVRTrackedCamera = false ∨
        (runLoop t dev k c0).m_hTrackedCamera = 0) →
      runLoop t dev (k + 1) c0
        = { runLoop t dev k c0 with control := Control.returned 1 }) ∧
    ((runLoop t dev k c0).m_pVRTrackedCamera = true →
      (runLoop t dev k c0).m_hTrackedCamera ≠ 0 →
      ∀ d, dev.GetVideoStreamFrameBuffer (runLoop t dev k c0).device false
          = some (PollReply.failed, d) →
      runLoop t dev (k + 1) c0
        = { runLoop t dev k c0 with
            device := d
            nPolls := (runLoop t dev k c0).nPolls + 1
            control := Control.returned 1 }) ∧
    ((runLoop t dev k c0).m_pVRTrackedCamera = true →
      (runLoop t dev k c0).m_hTrackedCamera ≠ 0 →
      ∀ h px d d2,
      dev.GetVideoStreamFrameBuffer (runLoop t dev k c0).device false
          = some (PollReply.frame h px, d) →
      h.nFrameSequence ≠ (runLoop t dev k c0).m_nLastFrameSequence →
      dev.GetVideoStreamFrameBuffer d true = some (PollReply.failed, d2) →
      runLoop t dev (k + 1) c0
        = { runLoop t dev k c0 with
            device := d2
            nPolls := (runLoop t dev k c0).nPolls + 2
            control := Control.returned 1 }) := by
  obtain ⟨_, _, r3, r4, r5, _, _, r8, _⟩ := runLoop_session t dev rt d0 c0 h0 k
  have himg := createImage_again _ _ _ _ r8
  rw [← r3, ← r4, ← r5] at himg
  obtain ⟨f1, f2, f3, f4⟩ := loopIteration_failure t dev _ hloop hlen himg hfail
  obtain ⟨g1, g2, g3⟩ := loopIteration_failure_state t dev _ hloop hlen himg
  rw [← runLoop_succ] at f1 f2 f3 f4 g1 g2 g3
  have hfrozen : runLoop t dev (k + 1 + n) c0 = runLoop t dev (k + 1) c0 := by
    rw [runLoop_add]
    exact runLoop_idle t dev n _ (by rw [f1]; simp)
  refine ⟨f1, f2, f3, f4, hfrozen, ?_, g1, g2, g3⟩
  unfold mainWith
  rw [h0]
  simp only
  rw [hfrozen]
  unfold finish
  rw [f1]

/-- The hypotheses of `device_failure_fatal` hold of a camera that delivers
one frame, then reports an error to the header-only call, and has two more
replies ready: `main` ends with status 1, and five passes later the state is
still the one after the failing call, with three calls made and the two
replies left. -/
theorem device_failure_fatal_witness :
    startUp sampleRuntime failingScript = Except.ok (sampleEntry failingScript) ∧
    (runLoop 100 scripted 1 (sampleEntry failingScript)).control = Control.looping ∧
    (runLoop 100 scripted 1 (sampleEntry failingScript)).imgBuffer.length ≠ 100 ∧
    deviceFailure scripted (runLoop 100 scripted 1 (sampleEntry failingScript)) = true ∧
    main scripted sampleRuntime failingScript (1 + 1 + 5) = Outcome.exit 1 ∧
    runLoop 100 scripted (1 + 1 + 5) (sampleEntry failingScript)
      = { runLoop 100 scripted 1 (sampleEntry failingScript) with
          device := sampleScript [6, 6]
          nPolls := (runLoop 100 scripted 1 (sampleEntry failingScript)).nPolls + 1
          control := Control.returned 1 } ∧
    (runLoop 100 scripted 1 (sampleEntry failingScript)).nPolls + 1 = 3 :=
  ⟨rfl, rfl, by decide, rfl,
    (device_failure_fatal 100 scripted sampleRuntime failingScript (sampleEntry failingScript)
      rfl 1 rfl (by decide) rfl 5).2.2.2.2.2.1,
    ((device_failure_fatal 100 scripted sampleRuntime failingScript (sampleEntry failingScript)
      rfl 1 rfl (by decide) rfl 5).2.2.2.2.1).trans
      ((device_failure_fatal 100 scripted sampleRuntime failingScript (sampleEntry failingScript)
        rfl 1 rfl (by decide) rfl 5).2.2.2.2.2.2.2.1 rfl (by decide) (sampleScript [6, 6]) rfl),
    by decide⟩


/-! ## Channel inference -/

theorem frameQuotient_exact (w h k : Nat) (hpos : 0 < w * h) (hfit : w * h < 2 ^ 32) :
    frameQuotient w h (w * h * k) = some k := by
  unfold frameQuotient UINT32_RANGE
  have hcomm : h * w = w * h := Nat.mul_comm h w
  rw [hcomm, Nat.mod_eq_of_lt hfit]
  have hne : w * h ≠ 0 := by omega
  simp only [hne, if_false]
  rw [Nat.mul_div_cancel_left k hpos]

/-- C6. For `width` and `height` with `width*height > 0`: when
`width*height*3` fits in 32 bits (so that nothing wraps), a buffer size of
`width*height*3` gives the 3-channel image type, and when `width*height*4` fits,
a buffer size of `width*height*4` gives the 4-channel type, whatever type
`image` had before;
and in every state of a run of `main` with this geometry, each stored frame
was read into an image of the type computed at start-up, which the inference
inside the loop reproduces. -/
theorem channel_inference {σ : Type} (w h : Nat)
    (hpos : 0 < w * h) (t : Nat) (dev : Device σ) (rt : Runtime) (d0 : σ) (c0 : Capture σ)
    (hrw : rt.width = w) (hrh : rt.height = h) (h0 : startUp rt d0 = Except.ok c0) (n : Nat) :
    (w * h * 3 < 2 ^ 32 →
      ∀ img, createImage img w h (w * h * 3) = some (some MatType.CV_8UC3)) ∧
    (w * h * 4 < 2 ^ 32 →
      ∀ img, createImage img w h (w * h * 4) = some (some MatType.CV_8UC4)) ∧
    (∀ f ∈ (runLoop t dev n c0).imgBuffer,
      createImage none w h rt.bufferSize = some f.type ∧
      createImage f.type w h rt.bufferSize = some f.type) := by
  refine ⟨?_, ?_, ?_⟩
  · intro h3 img
    unfold createImage
    rw [frameQuotient_exact w h 3 hpos (by omega)]
    simp
  · intro h4 img
    unfold createImage
    rw [frameQuotient_exact w h 4 hpos (by omega)]
    simp
  · intro f hf
    obtain ⟨_, _, _, _, _, _, _, r8, r9⟩ := runLoop_session t dev rt d0 c0 h0 n
    rw [hrw, hrh] at r8
    rw [r9 f hf]
    exact ⟨r8, createImage_again _ _ _ _ r8⟩

/-- The hypotheses of `channel_inference` hold of the 2x2 geometry of the
sample runtime: 12 bytes give three channels and 16 bytes give four. -/
theorem channel_inference_witness :
    (0 < 2 * 2 ∧ 2 * 2 * 3 < 2 ^ 32 ∧ 2 * 2 * 4 < 2 ^ 32) ∧
    startUp sampleRuntime (sampleStream [5, 6]) = Except.ok (sampleEntry (sampleStream [5, 6])) ∧
    createImage none 2 2 (2 * 2 * 3) = some (some MatType.CV_8UC3) ∧
    createImage none 2 2 (2 * 2 * 4) = some (some MatType.CV_8UC4) :=
  ⟨by decide, rfl,
    (channel_inference 2 2 (by decide) 100 latching sampleRuntime
      (sampleStream [5, 6]) (sampleEntry (sampleStream [5, 6])) rfl rfl rfl 3).1 (by decide) none,
    (channel_inference 2 2 (by decide) 100 latching sampleRuntime
      (sampleStream [5, 6]) (sampleEntry (sampleStream [5, 6])) rfl rfl rfl 3).2.1 (by decide) none⟩


/-! ## Frames without a usable pose -/

set_option maxRecDepth 100000 in
/-- C3. One hundred frames numbered 1 to 100 of which only the first has an
invalid pose: `main` reaches the export, writes `0.png` from the frame
numbered 1, writes under `Pose_Matrix_0` the transform of the frame numbered
2, and at index 99 reads `poseBuffer` past its end. -/
theorem index_correspondence_broken :
    main latching sampleRuntime firstInvalidStream 101
      = Outcome.exported
          (exportDataset (runLoop 100 latching 101 (sampleEntry firstInvalidStream))) ∧
    ((exportDataset (runLoop 100 latching 101 (sampleEntry firstInvalidStream))).images.get? 0).map
        (fun p => (p.1, p.2.seq)) = some (0, 1) ∧
    (exportDataset (runLoop 100 latching 101 (sampleEntry firstInvalidStream))).poses.get? 0
      = some (0, poseMat (sampleHeader 2 true)) ∧
    poseMat (sampleHeader 2 true) ≠ poseMat (sampleHeader 1 false) ∧
    (exportDataset (runLoop 100 latching 101 (sampleEntry firstInvalidStream))).outOfRange
      = some 99 :=
  ⟨rfl, by decide, by decide, by decide, by decide⟩

set_option maxRecDepth 100000 in
/-- C4. One hundred frames numbered 1 to 100 of which only the second has an
invalid pose: the frame is stored at index 1 of `imgBuffer`, but `poseBuffer`
gets 99 entries; the export writes under `Pose_Matrix_1` the transform of the
frame numbered 3, not a zero matrix, and at index 99 reads `poseBuffer` past
its end. -/
theorem invalid_pose_not_passed_through :
    ((runLoop 100 latching 101 (sampleEntry secondInvalidStream)).imgBuffer.get? 1).map
        (fun f => (f.seq, poseUsable f.frameHeader)) = some (2, false) ∧
    (runLoop 100 latching 101 (sampleEntry secondInvalidStream)).imgBuffer.length = 100 ∧
    (runLoop 100 latching 101 (sampleEntry secondInvalidStream)).poseBuffer.length = 99 ∧
    (exportDataset (runLoop 100 latching 101 (sampleEntry secondInvalidStream))).poses.get? 1
      = some (1, [[300, 301, 302, 303], [304, 305, 306, 307], [308, 309, 310, 311]]) ∧
    poseMat (sampleHeader 3 true)
      = [[300, 301, 302, 303], [304, 305, 306, 307], [308, 309, 310, 311]] ∧
    (exportDataset (runLoop 100 latching 101 (sampleEntry secondInvalidStream))).outOfRange
      = some 99 :=
  ⟨by decide, by decide, by decide, by decide, by decide, by decide⟩

/-! ## A frame layout that is neither 3 nor 4 bytes per pixel -/

/-- C5. A 2x2 frame with a buffer of 20 bytes: the quotient is 5, the
start-up goes on with `image` never created and enters the loop, and the first
pass calls the device twice. -/
theorem unsupported_layout_not_fatal :
    frameQuotient 2 2 20 = some 5 ∧
    createImage none 2 2 20 = some none ∧
    startUp fiveBytesRuntime (sampleStream [5])
      = Except.ok { sampleEntry (sampleStream [5]) with
          m_nCameraFrameBufferSize := 20, image := none } ∧
    main latching fiveBytesRuntime (sampleStream [5]) 0 = Outcome.stillLooping ∧
    (runLoop 100 latching 1 { sampleEntry (sampleStream [5]) with
        m_nCameraFrameBufferSize := 20, image := none }).nPolls = 2 :=
  ⟨by decide, by decide, rfl, rfl, by decide⟩


/-! ## Sequence numbers under a counter that never decreases -/

theorem scripted_poll {s s1 : List PollReply} {b : Bool} {r : PollReply}
    (h : scripted.GetVideoStreamFrameBuffer s b = some (r, s1)) : s = r :: s1 := by
  unfold scripted at h
  cases s with
  | nil => simp at h
  | cons r0 rest =>
    simp only [Option.some.injEq, Prod.mk.injEq] at h
    rw [h.1, h.2]

theorem scriptSeqs_tail (r : PollReply) (s : List PollReply)
    (hs : (scriptSeqs (r :: s)).Pairwise (· ≤ ·)) (b : Nat)
    (hb : ∀ y ∈ scriptSeqs (r :: s), b ≤ y) :
    (scriptSeqs s).Pairwise (· ≤ ·) ∧ ∀ y ∈ scriptSeqs s, b ≤ y := by
  cases r with
  | failed => exact ⟨hs, hb⟩
  | frame h px =>
    unfold scriptSeqs at hs hb
    exact ⟨(List.pairwise_cons.mp hs).2, fun y hy => hb y (List.mem_cons_of_mem _ hy)⟩

/-- With a script whose sequence numbers never decrease, the stored sequence
numbers are strictly increasing, positive and at most `m_nLastFrameSequence`,
and the replies still to come carry numbers that are at least
`m_nLastFrameSequence`. -/
theorem runLoop_scripted_increasing (t : Nat) (c0 : Capture (List PollReply))
    (hi : c0.imgBuffer = []) (hs : (scriptSeqs c0.device).Pairwise (· ≤ ·))
    (hl : c0.m_nLastFrameSequence = 0) (n : Nat) :
    (storedSeqs (runLoop t scripted n c0)).Pairwise (· < ·) ∧
    (∀ x ∈ storedSeqs (runLoop t scripted n c0),
      0 < x ∧ x ≤ (runLoop t scripted n c0).m_nLastFrameSequence) ∧
    (scriptSeqs (runLoop t scripted n c0).device).Pairwise (· ≤ ·) ∧
    ∀ y ∈ scriptSeqs (runLoop t scripted n c0).device,
      (runLoop t scripted n c0).m_nLastFrameSequence ≤ y := by
  induction n with
  | zero =>
    have h1 : storedSeqs (runLoop t scripted 0 c0) = [] := by
      unfold storedSeqs
      have : (runLoop t scripted 0 c0).imgBuffer = [] := hi
      rw [this]
      rfl
    have h2 : (runLoop t scripted 0 c0).device = c0.device := rfl
    have h3 : (runLoop t scripted 0 c0).m_nLastFrameSequence = 0 := hl
    rw [h1, h2, h3]
    exact ⟨List.Pairwise.nil, fun x hx => absurd hx (List.not_mem_nil x), hs,
      fun y _ => Nat.zero_le y⟩
  | succ n ih =>
    obtain ⟨i1, i2, i3, i4⟩ := ih
    rw [runLoop_succ]
    rcases loopIteration_effect t scripted (runLoop t scripted n c0) with
      ⟨e1, _, e3, e4⟩ | ⟨_, _, _, h0, px0, d1, h, px, p1, hne, p2, e1, _, e3⟩
    · have hst : storedSeqs (loopIteration t scripted (runLoop t scripted n c0))
          = storedSeqs (runLoop t scripted n c0) := by
        unfold storedSeqs
        rw [e1]
      rw [hst, e3]
      refine ⟨i1, i2, ?_⟩
      rcases e4 with e4 | ⟨r, p⟩ | ⟨r, d, r2, p, q⟩
      · rw [e4]
        exact ⟨i3, i4⟩
      · have hd := scripted_poll p
        rw [hd] at i3 i4
        exact scriptSeqs_tail r _ i3 _ i4
      · have hd := scripted_poll p
        have hd2 := scripted_poll q
        rw [hd] at i3 i4
        obtain ⟨j3, j4⟩ := scriptSeqs_tail r _ i3 _ i4
        rw [hd2] at j3 j4
        exact scriptSeqs_tail _ _ j3 _ j4
    · have hd := scripted_poll p1
      have hd2 := scripted_poll p2
      rw [hd, hd2] at i3 i4
      have k3 : (h0.nFrameSequence :: h.nFrameSequence ::
          scriptSeqs (loopIteration t scripted (runLoop t scripted n c0)).device).Pairwise
            (· ≤ ·) := i3
      have k4 : ∀ y ∈ h0.nFrameSequence :: h.nFrameSequence ::
          scriptSeqs (loopIteration t scripted (runLoop t scripted n c0)).device,
            (runLoop t scripted n c0).m_nLastFrameSequence ≤ y := i4
      have hle0 := k4 h0.nFrameSequence (List.mem_cons_self _ _)
      rw [List.pairwise_cons] at k3
      obtain ⟨k5, k6⟩ := k3
      have hle1 := k5 h.nFrameSequence (List.mem_cons_self _ _)
      rw [List.pairwise_cons] at k6
      have hlt : (runLoop t scripted n c0).m_nLastFrameSequence < h.nFrameSequence := by omega
      have hst : storedSeqs (loopIteration t scripted (runLoop t scripted n c0))
          = storedSeqs (runLoop t scripted n c0) ++ [h.nFrameSequence] := by
        unfold storedSeqs
        rw [e1, List.map_append]
        rfl
      rw [hst, e3]
      refine ⟨?_, ?_, k6.2, k6.1⟩
      · rw [List.pairwise_append]
        refine ⟨i1, List.pairwise_singleton _ _, ?_⟩
        intro a ha b hb
        rw [List.mem_singleton] at hb
        have := (i2 a ha).2
        omega
      · intro x hx
        rcases List.mem_append.mp hx with hx | hx
        · have := i2 x hx
          omega
        · rw [List.mem_singleton] at hx
          omega

/-- C9. If the sequence numbers of the replies, in call order (header-only
and full calls together), never decrease, then in every state of a run of
`main` the sequence numbers of the stored frames are strictly increasing in
capture order and none is zero. -/
theorem stored_strictly_increasing (t : Nat) (rt : Runtime) (script : List PollReply)
    (c0 : Capture (List PollReply)) (h0 : startUp rt script = Except.ok c0)
    (hmono : (scriptSeqs script).Pairwise (· ≤ ·)) (n : Nat) :
    (storedSeqs (runLoop t scripted n c0)).Pairwise (· < ·) ∧
    ∀ x ∈ storedSeqs (runLoop t scripted n c0), x ≠ 0 := by
  obtain ⟨_, _, _, _, _, _, _, s8, s9, _, s11, _⟩ := startUp_ok rt script c0 h0
  rw [← s11] at hmono
  obtain ⟨r1, r2, _⟩ := runLoop_scripted_increasing t c0 s9 hmono s8 n
  exact ⟨r1, fun x hx => by have := (r2 x hx).1; omega⟩

/-- The hypotheses of `stored_strictly_increasing` hold of the replies
5, 6, 6, 6, 7, 9: the header-only calls see 5, 6 and 7, the frames stored are
those of the full calls, numbered 6 and 9. -/
theorem stored_strictly_increasing_witness :
    startUp sampleRuntime (sampleScript [5, 6, 6, 6, 7, 9])
      = Except.ok (sampleEntry (sampleScript [5, 6, 6, 6, 7, 9])) ∧
    (scriptSeqs (sampleScript [5, 6, 6, 6, 7, 9])).Pairwise (· ≤ ·) ∧
    storedSeqs (runLoop 100 scripted 5 (sampleEntry (sampleScript [5, 6, 6, 6, 7, 9]))) = [6, 9] ∧
    (storedSeqs (runLoop 100 scripted 5
      (sampleEntry (sampleScript [5, 6, 6, 6, 7, 9])))).Pairwise (· < ·) :=
  ⟨rfl, by decide, by decide,
    (stored_strictly_increasing 100 sampleRuntime (sampleScript [5, 6, 6, 6, 7, 9])
      (sampleEntry (sampleScript [5, 6, 6, 6, 7, 9])) rfl (by decide) 5).1⟩


/-! ## Duplicate sequence numbers -/

theorem pairwise_at {α : Type} {R : α → α → Prop} (l : List α) (hl : l.Pairwise R) (i j : Nat)
    (a b : α) (hij : i < j) (ha : l.get? i = some a) (hb : l.get? j = some b) : R a b := by
  induction l generalizing i j with
  | nil => simp at ha
  | cons x xs ih =>
    obtain ⟨hx, hxs⟩ := List.pairwise_cons.mp hl
    cases j with
    | zero => omega
    | succ j =>
      have hb1 : xs.get? j = some b := by simpa using hb
      cases i with
      | zero =>
        have ha1 : x = a := by simpa using ha
        rw [← ha1]
        exact hx b (List.get?_mem hb1)
      | succ i =>
        have ha1 : xs.get? i = some a := by simpa using ha
        exact ih hxs i j (by omega) ha1 hb1

/-- C1, as stated, fails: the replies 5, 5, 6, 6, 5, 5 (header-only and full
calls in turn) leave three stored frames, and the frames at positions 0 and 2
both have sequence number 5. -/
theorem duplicate_when_number_returns :
    startUp sampleRuntime (sampleScript [5, 5, 6, 6, 5, 5])
      = Except.ok (sampleEntry (sampleScript [5, 5, 6, 6, 5, 5])) ∧
    ((runLoop 100 scripted 3 (sampleEntry (sampleScript [5, 5, 6, 6, 5, 5]))).imgBuffer.get? 0).map
      Frame.seq = some 5 ∧
    ((runLoop 100 scripted 3 (sampleEntry (sampleScript [5, 5, 6, 6, 5, 5]))).imgBuffer.get? 2).map
      Frame.seq = some 5 :=
  ⟨rfl, by decide, by decide⟩

theorem collapseRuns_cons_cons (x y : Nat) (rest : List Nat) :
    collapseRuns (x :: y :: rest)
      = if x = y then collapseRuns (y :: rest) else x :: collapseRuns (y :: rest) := by
  rw [collapseRuns]

/-- Collapsing the runs of a list keeps its head and goes on after the run of
the head. -/
theorem collapseRuns_cons (x : Nat) (l : List Nat) :
    collapseRuns (x :: l) = x :: collapseRuns (l.dropWhile (· = x)) := by
  induction l with
  | nil => rfl
  | cons y l ih =>
    rw [collapseRuns_cons_cons]
    by_cases hxy : x = y
    · subst hxy
      simp only [if_true]
      rw [ih]
      simp [List.dropWhile]
    · have hyx : ¬ y = x := fun h => hxy h.symm
      simp [hxy, hyx, List.dropWhile]

theorem mem_collapseRuns (y : Nat) (l : List Nat) (hy : y ∈ l) : y ∈ collapseRuns l := by
  induction l with
  | nil => exact absurd hy (List.not_mem_nil y)
  | cons x l ih =>
    rcases List.mem_cons.mp hy with hy | hy
    · rw [collapseRuns_cons, hy]
      exact List.mem_cons_self _ _
    · have hin := ih hy
      cases l with
      | nil => exact absurd hy (List.not_mem_nil y)
      | cons z l =>
        rw [collapseRuns_cons_cons]
        by_cases hxz : x = z
        · simp only [hxz, if_true]
          exact hin
        · simp only [hxz, if_false]
          exact List.mem_cons_of_mem _ hin

theorem mem_of_mem_collapseRuns (y : Nat) (l : List Nat) (hy : y ∈ collapseRuns l) : y ∈ l := by
  induction l with
  | nil => exact hy
  | cons x l ih =>
    cases l with
    | nil => exact hy
    | cons z l =>
      rw [collapseRuns_cons_cons] at hy
      by_cases hxz : x = z
      · simp only [hxz, if_true] at hy
        exact List.mem_cons_of_mem _ (ih hy)
      · simp only [hxz, if_false] at hy
        rcases List.mem_cons.mp hy with hy | hy
        · rw [hy]
          exact List.mem_cons_self _ _
        · exact List.mem_cons_of_mem _ (ih hy)

/-- Numbers that never decrease do not come back after a different one. -/
theorem collapseRuns_nodup_of_nondecreasing (l : List Nat) (h : l.Pairwise (· ≤ ·)) :
    (collapseRuns l).Nodup := by
  induction l with
  | nil => exact List.nodup_nil
  | cons x l ih =>
    obtain ⟨hx, hl⟩ := List.pairwise_cons.mp h
    cases l with
    | nil => exact List.nodup_singleton x
    | cons z l =>
      rw [collapseRuns_cons_cons]
      by_cases hxz : x = z
      · simp only [hxz, if_true]
        exact ih hl
      · simp only [hxz, if_false]
        refine List.nodup_cons.mpr ⟨?_, ih hl⟩
        intro hin
        have hmem := mem_of_mem_collapseRuns x _ hin
        have hzx : z ≤ x := by
          rcases List.mem_cons.mp hmem with hm | hm
          · omega
          · exact (List.pairwise_cons.mp hl).1 x hm
        have hxz2 := hx z (List.mem_cons_self _ _)
        omega

theorem collapseRuns_nodup_tail (x : Nat) (l : List Nat)
    (h : (collapseRuns (x :: l)).Nodup) : (collapseRuns l).Nodup := by
  cases l with
  | nil => exact List.nodup_nil
  | cons z l =>
    rw [collapseRuns_cons_cons] at h
    by_cases hxz : x = z
    · simpa only [hxz, if_true] using h
    · simp only [hxz, if_false] at h
      exact (List.nodup_cons.mp h).2

theorem collapseRuns_nodup_head (x : Nat) (l : List Nat)
    (h : (collapseRuns (x :: l)).Nodup) : x ∉ l.dropWhile (· = x) := by
  rw [collapseRuns_cons] at h
  intro hx
  exact (List.nodup_cons.mp h).1 (mem_collapseRuns x _ hx)

theorem not_mem_dropWhile_tail (a y : Nat) (l : List Nat)
    (h : a ∉ (y :: l).dropWhile (· = a)) : a ∉ l.dropWhile (· = a) := by
  by_cases hy : y = a
  · simpa [List.dropWhile, hy] using h
  · have hwhole : a ∉ y :: l := by simpa [List.dropWhile, hy] using h
    intro hin
    exact hwhole (List.mem_cons_of_mem _ ((List.dropWhile_sublist _).subset hin))

/-- The three facts about the numbers still to come that the loop relies on
pass from a script to the script without its first reply. -/
theorem scriptSeqs_rest (r : PollReply) (s : List PollReply) (S : List Nat) (last : Nat)
    (h1 : (collapseRuns (scriptSeqs (r :: s))).Nodup)
    (h3 : ∀ x ∈ S, x ≠ last → x ∉ scriptSeqs (r :: s))
    (h4 : last ∈ S → last ∉ (scriptSeqs (r :: s)).dropWhile (· = last)) :
    (collapseRuns (scriptSeqs s)).Nodup ∧
    (∀ x ∈ S, x ≠ last → x ∉ scriptSeqs s) ∧
    (last ∈ S → last ∉ (scriptSeqs s).dropWhile (· = last)) := by
  cases r with
  | failed => exact ⟨h1, h3, h4⟩
  | frame h px =>
    unfold scriptSeqs at h1 h3 h4
    exact ⟨collapseRuns_nodup_tail _ _ h1,
      fun x hx hne hin => h3 x hx hne (List.mem_cons_of_mem _ hin),
      fun hl => not_mem_dropWhile_tail _ _ _ (h4 hl)⟩

/-- With a script in which no sequence number comes back after a different
one, the stored sequence numbers are distinct; a stored number other than
`m_nLastFrameSequence` is not among the replies still to come, and
`m_nLastFrameSequence`, once stored, is not among them after its own run. -/
theorem runLoop_scripted_distinct (t : Nat) (c0 : Capture (List PollReply))
    (hi : c0.imgBuffer = []) (hs : (collapseRuns (scriptSeqs c0.device)).Nodup) (n : Nat) :
    (collapseRuns (scriptSeqs (runLoop t scripted n c0).device)).Nodup ∧
    (storedSeqs (runLoop t scripted n c0)).Nodup ∧
    (∀ x ∈ storedSeqs (runLoop t scripted n c0),
      x ≠ (runLoop t scripted n c0).m_nLastFrameSequence →
      x ∉ scriptSeqs (runLoop t scripted n c0).device) ∧
    ((runLoop t scripted n c0).m_nLastFrameSequence ∈ storedSeqs (runLoop t scripted n c0) →
      (runLoop t scripted n c0).m_nLastFrameSequence ∉
        (scriptSeqs (runLoop t scripted n c0).device).dropWhile
          (· = (runLoop t scripted n c0).m_nLastFrameSequence)) := by
  induction n with
  | zero =>
    have h1 : storedSeqs (runLoop t scripted 0 c0) = [] := by
      unfold storedSeqs
      have : (runLoop t scripted 0 c0).imgBuffer = [] := hi
      rw [this]
      rfl
    have h2 : (runLoop t scripted 0 c0).device = c0.device := rfl
    rw [h1, h2]
    exact ⟨hs, List.nodup_nil, fun x hx => absurd hx (List.not_mem_nil x),
      fun hx => absurd hx (List.not_mem_nil _)⟩
  | succ n ih =>
    obtain ⟨i1, i2, i3, i4⟩ := ih
    rw [runLoop_succ]
    rcases loopIteration_effect t scripted (runLoop t scripted n c0) with
      ⟨e1, _, e3, e4⟩ | ⟨_, _, _, h0, px0, d1, h, px, p1, hne, p2, e1, _, e3⟩
    · have hst : storedSeqs (loopIteration t scripted (runLoop t scripted n c0))
          = storedSeqs (runLoop t scripted n c0) := by
        unfold storedSeqs
        rw [e1]
      rw [hst, e3]
      rcases e4 with e4 | ⟨r, p⟩ | ⟨r, d, r2, p, q⟩
      · rw [e4]
        exact ⟨i1, i2, i3, i4⟩
      · have hd := scripted_poll p
        rw [hd] at i1 i3 i4
        obtain ⟨j1, j3, j4⟩ := scriptSeqs_rest r _ _ _ i1 i3 i4
        exact ⟨j1, i2, j3, j4⟩
      · have hd := scripted_poll p
        have hd2 := scripted_poll q
        rw [hd] at i1 i3 i4
        obtain ⟨j1, j3, j4⟩ := scriptSeqs_rest r _ _ _ i1 i3 i4
        rw [hd2] at j1 j3 j4
        obtain ⟨k1, k3, k4⟩ := scriptSeqs_rest r2 _ _ _ j1 j3 j4
        exact ⟨k1, i2, k3, k4⟩
    · have hd := scripted_poll p1
      have hd2 := scripted_poll p2
      rw [hd, hd2] at i1 i3 i4
      have k1 : (collapseRuns (h0.nFrameSequence :: h.nFrameSequence ::
          scriptSeqs (loopIteration t scripted (runLoop t scripted n c0)).device)).Nodup := i1
      have k3 : ∀ x ∈ storedSeqs (runLoop t scripted n c0),
          x ≠ (runLoop t scripted n c0).m_nLastFrameSequence →
          x ∉ h0.nFrameSequence :: h.nFrameSequence ::
            scriptSeqs (loopIteration t scripted (runLoop t scripted n c0)).device := i3
      have k4 : (runLoop t scripted n c0).m_nLastFrameSequence
            ∈ storedSeqs (runLoop t scripted n c0) →
          (runLoop t scripted n c0).m_nLastFrameSequence ∉
            (h0.nFrameSequence :: h.nFrameSequence ::
              scriptSeqs (loopIteration t scripted (runLoop t scripted n c0)).device).dropWhile
              (· = (runLoop t scripted n c0).m_nLastFrameSequence) := i4
      have hgone : ∀ x ∈ storedSeqs (runLoop t scripted n c0),
          x ∉ h0.nFrameSequence :: h.nFrameSequence ::
            scriptSeqs (loopIteration t scripted (runLoop t scripted n c0)).device := by
        intro x hx
        by_cases hxl : x = (runLoop t scripted n c0).m_nLastFrameSequence
        · have hlast := k4 (by rw [← hxl]; exact hx)
          rw [hxl]
          simpa [List.dropWhile, hne] using hlast
        · exact k3 x hx hxl
      have m1 := collapseRuns_nodup_tail _ _ k1
      have hst : storedSeqs (loopIteration t scripted (runLoop t scripted n c0))
          = storedSeqs (runLoop t scripted n c0) ++ [h.nFrameSequence] := by
        unfold storedSeqs
        rw [e1, List.map_append]
        rfl
      rw [hst, e3]
      refine ⟨collapseRuns_nodup_tail _ _ m1, ?_, ?_, ?_⟩
      · rw [List.nodup_append]
        refine ⟨i2, List.nodup_singleton _, ?_⟩
        intro a ha hb
        rw [List.mem_singleton] at hb
        exact hgone a ha (by rw [hb]; simp)
      · intro x hx _ hin
        rcases List.mem_append.mp hx with hx | hx
        · exact hgone x hx (List.mem_cons_of_mem _ (List.mem_cons_of_mem _ hin))
        · rw [List.mem_singleton] at hx
          contradiction
      · intro _
        exact collapseRuns_nodup_head _ _ m1

/-- C1, amended. If among the sequence numbers of the replies, in call order,
no number comes back after a different one (with each run of equal numbers
collapsed to one entry, every number occurs once), then in every state of a
run of `main` the frames stored at two different positions of `imgBuffer`
have different sequence numbers. -/
theorem no_duplicates_when_no_number_returns (t : Nat) (rt : Runtime)
    (script : List PollReply) (c0 : Capture (List PollReply))
    (h0 : startUp rt script = Except.ok c0)
    (hnoreturn : (collapseRuns (scriptSeqs script)).Nodup) (n i j : Nat) (f g : Frame)
    (hij : i < j)
    (hf : (runLoop t scripted n c0).imgBuffer.get? i = some f)
    (hg : (runLoop t scripted n c0).imgBuffer.get? j = some g) :
    f.seq ≠ g.seq := by
  obtain ⟨_, _, _, _, _, _, _, _, s9, _, s11, _⟩ := startUp_ok rt script c0 h0
  rw [← s11] at hnoreturn
  obtain ⟨_, r2, _⟩ := runLoop_scripted_distinct t c0 s9 hnoreturn n
  unfold storedSeqs List.Nodup at r2
  rw [List.pairwise_map] at r2
  exact pairwise_at _ r2 i j f g hij hf hg

/-- The hypotheses of `no_duplicates_when_no_number_returns` hold of the
replies 4294967295, 4294967295, 0, 0, 1, 1, where the 32-bit counter wraps:
the frames stored at positions 0 and 1 are numbered 4294967295 and 0. -/
theorem no_duplicates_when_no_number_returns_witness :
    startUp sampleRuntime (sampleScript [4294967295, 4294967295, 0, 0, 1, 1])
      = Except.ok (sampleEntry (sampleScript [4294967295, 4294967295, 0, 0, 1, 1])) ∧
    (collapseRuns (scriptSeqs (sampleScript [4294967295, 4294967295, 0, 0, 1, 1]))).Nodup ∧
    storedSeqs (runLoop 100 scripted 3
      (sampleEntry (sampleScript [4294967295, 4294967295, 0, 0, 1, 1]))) = [4294967295, 0, 1] ∧
    (Frame.mk (some MatType.CV_8UC4) [4294967295] (sampleHeader 4294967295 true)).seq
      ≠ (Frame.mk (some MatType.CV_8UC4) [0] (sampleHeader 0 true)).seq :=
  ⟨rfl, by decide, by decide,
    no_duplicates_when_no_number_returns 100 sampleRuntime
      (sampleScript [4294967295, 4294967295, 0, 0, 1, 1])
      (sampleEntry (sampleScript [4294967295, 4294967295, 0, 0, 1, 1])) rfl (by decide) 3 0 1
      (Frame.mk (some MatType.CV_8UC4) [4294967295] (sampleHeader 4294967295 true))
      (Frame.mk (some MatType.CV_8UC4) [0] (sampleHeader 0 true)) (by decide) rfl rfl⟩

/-! ## Deduplication on a stream of frames -/

theorem keepChanges_self (x : Nat) (xs : List Nat) :
    x :: keepChanges x xs = collapseRuns (x :: xs) := by
  induction xs generalizing x with
  | nil => rfl
  | cons y ys ih =>
    unfold keepChanges collapseRuns
    by_cases hxy : x = y
    · subst hxy
      simp only [if_true]
      exact ih x
    · have hyx : ¬ y = x := fun h => hxy h.symm
      simp only [hxy, hyx, if_false]
      rw [ih y]

theorem keepChanges_zero (xs : List Nat) :
    keepChanges 0 xs = collapseRuns (xs.dropWhile (· = 0)) := by
  induction xs with
  | nil => rfl
  | cons x xs ih =>
    unfold keepChanges
    by_cases hx : x = 0
    · subst hx
      simp only [if_true]
      rw [ih]
      simp [List.dropWhile]
    · simp only [hx, if_false]
      rw [keepChanges_self]
      simp [List.dropWhile, hx]

/-- One pass over a stream that still has a frame to show. -/
theorem loopIteration_latching (t : Nat) (c : Capture Latch)
    (x : CameraVideoStreamFrameHeader_t × List Nat)
    (rest : List (CameraVideoStreamFrameHeader_t × List Nat))
    (hc : c.control = Control.looping) (hlen : c.imgBuffer.length ≠ t)
    (hp : c.m_pVRTrackedCamera = true) (hh : c.m_hTrackedCamera ≠ 0)
    (himg : createImage c.image c.m_nCameraFrameWidth c.m_nCameraFrameHeight
      c.m_nCameraFrameBufferSize = some c.image)
    (hty : c.image ≠ none)
    (hs : c.device.stream = x :: rest) :
    loopIteration t latching c =
      if x.1.nFrameSequence = c.m_nLastFrameSequence then
        { c with device := { held := some x, stream := rest }, nPolls := c.nPolls + 1 }
      else
        storeFrame { c with device := { held := some x, stream := rest }
                            nPolls := c.nPolls + 1 + 1 } x.1 x.2 := by
  unfold loopIteration copyFrame latching
  simp only [hc, hlen, hp, hh, hs, himg]
  by_cases hx : x.1.nFrameSequence = c.m_nLastFrameSequence
  · simp [hx]
  · obtain ⟨ty, hsome⟩ : ∃ ty, c.image = some ty := by
      cases hi : c.image with
      | none => exact absurd hi hty
      | some ty => exact ⟨ty, rfl⟩
    simp [hx, hsome]


/-- A pass over a stream that has run dry stores nothing and leaves the head
of the loop. -/
theorem loopIteration_latching_dry (t : Nat) (c : Capture Latch)
    (hs : c.device.stream = []) :
    (loopIteration t latching c).imgBuffer = c.imgBuffer ∧
    (loopIteration t latching c).control ≠ Control.looping := by
  unfold loopIteration copyFrame latching
  simp only [hs]
  repeat' split
  all_goals simp_all

/-- The frames stored once a stream has been shown in full. -/
theorem runLoop_latching (t : Nat) (s : List (CameraVideoStreamFrameHeader_t × List Nat)) :
    ∀ (c : Capture Latch) (n : Nat), c.control = Control.looping →
      c.m_pVRTrackedCamera = true → c.m_hTrackedCamera ≠ 0 →
      createImage c.image c.m_nCameraFrameWidth c.m_nCameraFrameHeight
        c.m_nCameraFrameBufferSize = some c.image → c.image ≠ none →
      c.device.stream = s → c.imgBuffer.length ≤ t → s.length + 1 ≤ n →
      storedSeqs (runLoop t latching n c)
        = (storedSeqs c ++ keepChanges c.m_nLastFrameSequence (streamSeqs s)).take t := by
  induction s with
  | nil =>
    intro c n _ _ _ _ _ hs hle hn
    obtain ⟨m, rfl⟩ : ∃ m, n = m + 1 := ⟨n - 1, by simp at hn; omega⟩
    obtain ⟨d1, d2⟩ := loopIteration_latching_dry t c hs
    rw [runLoop_succ_front, runLoop_idle t latching m _ d2]
    unfold storedSeqs streamSeqs
    rw [d1]
    simp only [List.map_nil, keepChanges, List.append_nil]
    rw [List.take_of_length_le (by rw [List.length_map]; exact hle)]
  | cons x rest ih =>
    intro c n hc hp hh himg hty hs hle hn
    obtain ⟨m, rfl⟩ : ∃ m, n = m + 1 := ⟨n - 1, by simp at hn; omega⟩
    have hm : rest.length + 1 ≤ m := by simp at hn; omega
    rw [runLoop_succ_front]
    by_cases hlen : c.imgBuffer.length = t
    · have hbreak : (loopIteration t latching c).control = Control.leftLoop :=
        (loopIteration_break_iff t latching c hc).mpr hlen
      have hsame : (loopIteration t latching c).imgBuffer = c.imgBuffer := by
        unfold loopIteration
        simp [hc, hlen]
      rw [runLoop_idle t latching m _ (by rw [hbreak]; simp)]
      unfold storedSeqs
      rw [hsame, List.take_append_of_le_length (by rw [List.length_map]; omega),
        List.take_of_length_le (by rw [List.length_map]; omega)]
    · rw [loopIteration_latching t c x rest hc hlen hp hh himg hty hs]
      by_cases hx : x.1.nFrameSequence = c.m_nLastFrameSequence
      · simp only [hx, if_true]
        have key := ih { c with device := { held := some x, stream := rest }
                                nPolls := c.nPolls + 1 } m hc hp hh himg hty rfl hle hm
        rw [key]
        unfold storedSeqs streamSeqs
        simp only [List.map_cons, keepChanges, hx, if_true]
      · simp only [hx, if_false]
        have key := ih (storeFrame { c with device := { held := some x, stream := rest }
                                            nPolls := c.nPolls + 1 + 1 } x.1 x.2) m
          (by simp [storeFrame, hc]) (by simp [storeFrame, hp])
          (by simp [storeFrame, hh]) (by simpa [storeFrame] using himg)
          (by simpa [storeFrame] using hty) (by simp [storeFrame])
          (by simp [storeFrame]; omega) hm
        rw [key]
        unfold storedSeqs streamSeqs
        simp only [List.map_cons, keepChanges, hx, if_false]
        simp [storeFrame, Frame.seq]

/-- In every state, `m_nLastFrameSequence` is 0 while nothing is stored and the
sequence number of the last stored frame afterwards. -/
theorem runLoop_last {σ : Type} (t : Nat) (dev : Device σ) (c0 : Capture σ)
    (hi : c0.imgBuffer = []) (hl : c0.m_nLastFrameSequence = 0) (n : Nat) :
    (runLoop t dev n c0).m_nLastFrameSequence
      = ((storedSeqs (runLoop t dev n c0)).getLast?).getD 0 := by
  induction n with
  | zero =>
    have h1 : (runLoop t dev 0 c0).imgBuffer = [] := hi
    have h2 : (runLoop t dev 0 c0).m_nLastFrameSequence = 0 := hl
    unfold storedSeqs
    rw [h1, h2]
    rfl
  | succ n ih =>
    rw [runLoop_succ]
    rcases loopIteration_effect t dev (runLoop t dev n c0) with
      ⟨e1, _, e3, _⟩ | ⟨_, _, _, _, _, _, h, px, _, _, _, e1, _, e3⟩
    · unfold storedSeqs at ih ⊢
      rw [e1, e3]
      exact ih
    · unfold storedSeqs
      rw [e1, e3, List.map_append]
      simp [Frame.seq]


/-- C8, as stated, fails: on the stream of frames numbered 0, 1 the first
polled frame is discarded and only the frame numbered 1 is stored, while
collapsing the runs of the stream gives 0, 1. -/
theorem first_frame_numbered_zero_discarded :
    startUp sampleRuntime (sampleStream [0, 1]) = Except.ok (sampleEntry (sampleStream [0, 1])) ∧
    storedSeqs (runLoop 100 latching 1 (sampleEntry (sampleStream [0, 1]))) = [] ∧
    (runLoop 100 latching 1 (sampleEntry (sampleStream [0, 1]))).nPolls = 1 ∧
    storedSeqs (runLoop 100 latching 3 (sampleEntry (sampleStream [0, 1]))) = [1] ∧
    (collapseRuns (streamSeqs (sampleStream [0, 1]).stream)).take 100 = [0, 1] ∧
    storedSeqs (runLoop 100 latching 3 (sampleEntry (sampleStream [0, 1])))
      ≠ (collapseRuns (streamSeqs (sampleStream [0, 1]).stream)).take 100 :=
  ⟨rfl, by decide, by decide, by decide, by decide, by decide⟩

/-- With a quotient of 3 or 4 the image is created. -/
theorem createImage_supported (img : Option MatType) (w h b : Nat)
    (hl : frameQuotient w h b = some 3 ∨ frameQuotient w h b = some 4) :
    ∃ ty, createImage img w h b = some (some ty) := by
  unfold createImage
  rcases hl with hl | hl
  · rw [hl]
    exact ⟨MatType.CV_8UC3, by simp⟩
  · rw [hl]
    exact ⟨MatType.CV_8UC4, by simp⟩

/-- C8, amended. For a camera whose full call returns the frame its
header-only call reported, a frame layout of 3 or 4 bytes per pixel, a
non-zero handle and a finite stream of frames:
once the stream has been shown in full, the sequence numbers of the stored
frames, in capture order, are the stream without its leading frames numbered
0, with each run of consecutive equal numbers collapsed to one entry, cut off
at the target count. In every state `m_nLastFrameSequence` is 0 while nothing
is stored and the number of the last stored frame afterwards, and a pass that
polls a frame leaves `imgBuffer` as it was exactly when the frame's number
equals `m_nLastFrameSequence`. -/
theorem dedup_is_run_collapsing (t : Nat) (rt : Runtime)
    (s : List (CameraVideoStreamFrameHeader_t × List Nat)) (c0 : Capture Latch)
    (h0 : startUp rt { held := none, stream := s } = Except.ok c0) (hh : rt.handle ≠ 0)
    (hlayout : frameQuotient rt.width rt.height rt.bufferSize = some 3 ∨
      frameQuotient rt.width rt.height rt.bufferSize = some 4)
    (n : Nat) (hn : s.length + 1 ≤ n) :
    storedSeqs (runLoop t latching n c0)
      = (collapseRuns ((streamSeqs s).dropWhile (· = 0))).take t ∧
    (∀ k, (runLoop t latching k c0).m_nLastFrameSequence
      = ((storedSeqs (runLoop t latching k c0)).getLast?).getD 0) ∧
    (∀ k x rest, (runLoop t latching k c0).control = Control.looping →
      (runLoop t latching k c0).imgBuffer.length ≠ t →
      (runLoop t latching k c0).device.stream = x :: rest →
      ((runLoop t latching (k + 1) c0).imgBuffer = (runLoop t latching k c0).imgBuffer ↔
        x.1.nFrameSequence = (runLoop t latching k c0).m_nLastFrameSequence)) := by
  obtain ⟨s1, s2, s3, s4, s5, _, _, s8, s9, _, s11, _, s13, s14, _⟩ :=
    startUp_ok rt _ c0 h0
  have himg0 : createImage c0.image c0.m_nCameraFrameWidth c0.m_nCameraFrameHeight
      c0.m_nCameraFrameBufferSize = some c0.image := by
    rw [s3, s4, s5]
    exact createImage_again _ _ _ _ s14
  obtain ⟨ty, hty⟩ := createImage_supported none _ _ _ hlayout
  refine ⟨?_, ?_, ?_⟩
  · have hsome : c0.image ≠ none := by
      rw [hty] at s14
      intro hn0
      rw [hn0] at s14
      cases s14
    rw [runLoop_latching t s c0 n s13 s1 (by rw [s2]; exact hh) himg0 hsome (by rw [s11])
      (by rw [s9]; exact Nat.zero_le t) hn]
    unfold storedSeqs
    rw [s9, s8, List.map_nil, List.nil_append, keepChanges_zero]
  · intro k
    exact runLoop_last t latching c0 s9 s8 k
  · intro k x rest hc hlen hs
    obtain ⟨r1, r2, r3, r4, r5, _, _, r8, _⟩ :=
      runLoop_session t latching rt _ c0 h0 k
    have himg := createImage_again _ _ _ _ r8
    rw [← r3, ← r4, ← r5] at himg
    have hsome : (runLoop t latching k c0).image ≠ none := by
      rw [hty] at r8
      intro hn0
      rw [hn0] at r8
      cases r8
    rw [runLoop_succ,
      loopIteration_latching t _ x rest hc hlen r1 (by rw [r2]; exact hh) himg hsome hs]
    by_cases hx : x.1.nFrameSequence = (runLoop t latching k c0).m_nLastFrameSequence
    · simp [hx]
    · simp [hx, storeFrame]

/-- The hypotheses of `dedup_is_run_collapsing` hold of the stream
5, 5, 6, 6, 6, 7 with target 3: the stored frames are those numbered 5, 6, 7
and the frame count written is 3. -/
theorem dedup_is_run_collapsing_witness :
    startUp sampleRuntime { held := none, stream := (sampleStream [5, 5, 6, 6, 6, 7]).stream }
      = Except.ok (sampleEntry (sampleStream [5, 5, 6, 6, 6, 7])) ∧
    sampleRuntime.handle ≠ 0 ∧
    frameQuotient sampleRuntime.width sampleRuntime.height sampleRuntime.bufferSize = some 4 ∧
    (sampleStream [5, 5, 6, 6, 6, 7]).stream.length + 1 ≤ 7 ∧
    storedSeqs (runLoop 3 latching 7 (sampleEntry (sampleStream [5, 5, 6, 6, 6, 7]))) = [5, 6, 7] ∧
    (exportDataset (runLoop 3 latching 7
      (sampleEntry (sampleStream [5, 5, 6, 6, 6, 7])))).nr_of_frames = 3 :=
  ⟨rfl, by decide, by decide, by decide,
    (dedup_is_run_collapsing 3 sampleRuntime (sampleStream [5, 5, 6, 6, 6, 7]).stream
      (sampleEntry (sampleStream [5, 5, 6, 6, 6, 7])) rfl (by decide) (Or.inr (by decide))
      7 (by decide)).1.trans (by decide),
    by decide⟩

end OpenVRTest
